import Mathlib

/-!
Verification development for the device API session layer of the
ssi_iot_api_client repository (src/ssi/iot_api_client.py).

The Python class DeviceApi is shallowly embedded as a pure state-passing
model.  Points of the embedding:

* Python dicts keyed by strings or integers become association lists with
  dict-style assignment (setKey, which overwrites in place) and deletion
  (eraseKey).
* The external duplex transport (the ws object handed to DeviceApi) is
  modelled inside the state: wsClosed records whether ws.close() ran,
  sendLog records every JSON message successfully passed to ws.send_json,
  and sendAttempts counts every invocation of ws.send_json (including ones
  that raise).  Modelled from the spec: the transport is an external
  collaborator with a connection-closed failure signal, so send_json on a
  closed transport raises that failure.
* A blocking queue.Queue.get for one correlation id is modelled by handing
  the operation the list of responses the router will deliver to that
  queue, in transport-arrival order; an exhausted list means the get
  blocks (or, where the code passes a timeout, times out).
* Python exceptions become an explicit error component, paired with the
  state as mutated up to the raise point.
* json.loads is an explicit function parameter jsonLoads, since the claims
  treat parsing abstractly ("parsed per the requested mode").
* The generator body of DeviceApi.event runs lazily in Python; the model
  runs creation plus consumption in one function, which is the behaviour
  observed by any consumer of the stream.
-/

set_option autoImplicit false

namespace SsiIotApiClient

/-- Mirrors the Python enum DeviceApiEndpointType. -/
inductive DeviceApiEndpointType where
  | CALL
  | EVENT
  deriving DecidableEq

/-- Python-level exceptions raised on the DeviceApi code paths we model. -/
inductive PyError (α : Type) where
  /-- Exception("Invalid endpoint") raised in DeviceApi._send_msg. -/
  | invalidEndpoint
  /-- Exception("Invalid endpoint type") raised in DeviceApi.call / DeviceApi.event. -/
  | invalidEndpointType
  /-- KeyError from the dict subscript self._endpoints[endpoint] on an unknown name. -/
  | keyError
  /-- queue.Empty raised when queue.Queue.get times out. -/
  | queueEmpty
  /-- DeviceApiException carrying ret["payload"] for a non-zero status code. -/
  | deviceApiException (payload : α)
  /-- The transport connection-closed failure (WebSocketConnectionClosedException). -/
  | connectionClosed
  deriving DecidableEq

/-- Incoming transport message: message_id, status_code, payload. -/
structure Response (α : Type) where
  message_id : Nat
  status_code : Nat
  payload : α
  deriving DecidableEq

/-- Outgoing transport message: endpoint_id, payload, message_id. -/
structure OutMsg (α : Type) where
  endpoint_id : Nat
  payload : α
  message_id : Nat
  deriving DecidableEq

/-- Dict lookup on an association list (first matching key wins). -/
def lookup? {κ ν : Type} [DecidableEq κ] (k : κ) : List (κ × ν) → Option ν
  | [] => none
  | (k1, v) :: rest => if k1 = k then some v else lookup? k rest

/-- Dict assignment d[k] = v: overwrite the first entry for k in place, else append. -/
def setKey {κ ν : Type} [DecidableEq κ] (k : κ) (v : ν) : List (κ × ν) → List (κ × ν)
  | [] => [(k, v)]
  | (k1, v1) :: rest => if k1 = k then (k, v) :: rest else (k1, v1) :: setKey k v rest

/-- Dict deletion del d[k]: remove the first entry for k. -/
def eraseKey {κ ν : Type} [DecidableEq κ] (k : κ) : List (κ × ν) → List (κ × ν)
  | [] => []
  | (k1, v1) :: rest => if k1 = k then rest else (k1, v1) :: eraseKey k rest

/-- The mutable state of a DeviceApi instance, together with the modelled
transport.  msgQueues maps a correlation id to the contents of its
queue.Queue (the Pending Exchange map self._msg_queues). -/
structure DeviceApiState (α : Type) where
  /-- self._endpoints: name to (numeric id, kind). -/
  endpoints : List (String × Nat × DeviceApiEndpointType)
  /-- self._last_message_id. -/
  lastMessageId : Nat
  /-- self._msg_queues: the Pending Exchange map. -/
  msgQueues : List (Nat × List (Response α))
  /-- self._running. -/
  running : Bool
  /-- Whether ws.close() has been invoked on the transport. -/
  wsClosed : Bool
  /-- Count of invocations of ws.send_json, raising or not. -/
  sendAttempts : Nat
  /-- Messages successfully handed to ws.send_json, in order. -/
  sendLog : List (OutMsg α)
  deriving DecidableEq

/-- The single pre-seeded bootstrap entry of self._endpoints. -/
def initialEndpoints : List (String × Nat × DeviceApiEndpointType) :=
  [("get_call_info", (0, DeviceApiEndpointType.CALL))]

/-- DeviceApi._send_msg: look up the endpoint (raising "Invalid endpoint" if
absent), allocate the next message id, create the empty Pending Exchange
queue, then hand the message to ws.send_json.  The send on a closed
transport raises the connection-closed failure after the id allocation and
queue creation already happened. -/
def sendMsg {α : Type} (s : DeviceApiState α) (endpoint : String) (kwargs : α) :
    Except (PyError α) Nat × DeviceApiState α :=
  match lookup? endpoint s.endpoints with
  | none => (Except.error PyError.invalidEndpoint, s)
  | some (endpointId, _) =>
      let msgId := s.lastMessageId + 1
      let s1 : DeviceApiState α :=
        { s with lastMessageId := msgId,
                 msgQueues := setKey msgId [] s.msgQueues,
                 sendAttempts := s.sendAttempts + 1 }
      if s1.wsClosed then
        (Except.error PyError.connectionClosed, s1)
      else
        (Except.ok msgId,
         { s1 with sendLog := s1.sendLog ++ [⟨endpointId, kwargs, msgId⟩] })

/-- DeviceApi.call: kind check via dict subscript (KeyError on unknown name,
"Invalid endpoint type" unless the kind is CALL), then _send_msg, then a
bounded queue get (arrivals are the responses the router delivers for this
correlation id, in order; an empty list is a timeout: queue.Empty
propagates before the del statement runs).  On receipt the exchange entry
is deleted, then a non-zero status raises DeviceApiException with the
payload, else the payload is returned, json.loads-parsed when as_json. -/
def call {α : Type} (s : DeviceApiState α) (endpoint : String) (asJson : Bool)
    (jsonLoads : α → α) (kwargs : α) (arrivals : List (Response α)) :
    Except (PyError α) α × DeviceApiState α :=
  match lookup? endpoint s.endpoints with
  | none => (Except.error PyError.keyError, s)
  | some (_, epType) =>
      if epType ≠ DeviceApiEndpointType.CALL then
        (Except.error PyError.invalidEndpointType, s)
      else
        match sendMsg s endpoint kwargs with
        | (Except.error e, s1) => (Except.error e, s1)
        | (Except.ok msgId, s1) =>
            match arrivals with
            | [] => (Except.error PyError.queueEmpty, s1)
            | ret :: _ =>
                let s2 : DeviceApiState α :=
                  { s1 with msgQueues := eraseKey msgId s1.msgQueues }
                if ret.status_code ≠ 0 then
                  (Except.error (PyError.deviceApiException ret.payload), s2)
                else if asJson then
                  (Except.ok (jsonLoads ret.payload), s2)
                else
                  (Except.ok ret.payload, s2)

/-- How a consumed event stream ended. -/
inductive EventResult (α : Type) where
  /-- The terminal status 0xFFFF was consumed: the generator returned cleanly. -/
  | exhausted
  /-- DeviceApiException(ret["payload"]) was raised out of the generator. -/
  | raised (payload : α)
  /-- The unbounded queue get would block: no further response has arrived. -/
  | blocked
  deriving DecidableEq

/-- The body of the while-loop of DeviceApi.event: repeatedly get from the
exchange queue (no timeout); on status 0xFFFF delete the exchange entry
and stop; on any other non-zero status raise DeviceApiException without
deleting the entry (mirroring the code, which has no del on that path);
on status 0 yield the payload (parsed when as_json) and loop. -/
def eventLoop {α : Type} (msgId : Nat) (asJson : Bool) (jsonLoads : α → α) :
    List (Response α) → DeviceApiState α → List α × EventResult α × DeviceApiState α
  | [], s => ([], EventResult.blocked, s)
  | ret :: rest, s =>
      if ret.status_code = 0xFFFF then
        ([], EventResult.exhausted, { s with msgQueues := eraseKey msgId s.msgQueues })
      else if ret.status_code ≠ 0 then
        ([], EventResult.raised ret.payload, s)
      else
        let v := if asJson then jsonLoads ret.payload else ret.payload
        let out := eventLoop msgId asJson jsonLoads rest s
        (v :: out.1, out.2)

/-- DeviceApi.event, with the lazily-run generator body executed: kind check
(KeyError on unknown name, "Invalid endpoint type" unless kind EVENT), a
single _send_msg, then the consumption loop over the responses the router
delivers for this correlation id.  The first component of the ok result is
the list of yielded values, the second how the stream ended. -/
def event {α : Type} (s : DeviceApiState α) (endpoint : String) (asJson : Bool)
    (jsonLoads : α → α) (kwargs : α) (arrivals : List (Response α)) :
    Except (PyError α) (List α × EventResult α) × DeviceApiState α :=
  match lookup? endpoint s.endpoints with
  | none => (Except.error PyError.keyError, s)
  | some (_, epType) =>
      if epType ≠ DeviceApiEndpointType.EVENT then
        (Except.error PyError.invalidEndpointType, s)
      else
        match sendMsg s endpoint kwargs with
        | (Except.error e, s1) => (Except.error e, s1)
        | (Except.ok msgId, s1) =>
            let out := eventLoop msgId asJson jsonLoads arrivals s1
            (Except.ok (out.1, out.2.1), out.2.2)

/-- How the router loop of DeviceApi._msg_router terminates when
ws.recv_json raises the connection-closed failure. -/
inductive RouterExit where
  /-- raise DeviceApiException("Connection closed") on the router thread. -/
  | raisedConnectionClosed
  /-- The bare return: close was requested, exit silently. -/
  | exitedSilently
  deriving DecidableEq

/-- The connection-closed branch of DeviceApi._msg_router: if the running
flag is still set, clear it and raise DeviceApiException on the router
thread; otherwise return silently.  In either case nothing is pushed into
any Pending Exchange queue (msgQueues is untouched). -/
def msgRouterOnClosed {α : Type} (s : DeviceApiState α) : RouterExit × DeviceApiState α :=
  if s.running then
    (RouterExit.raisedConnectionClosed, { s with running := false })
  else
    (RouterExit.exitedSilently, s)

/-- One successful ws.recv_json iteration of DeviceApi._msg_router for a
message carrying a message_id: unknown correlation ids are reported and
dropped, otherwise the message is pushed onto the matching queue.  (A
message without a message_id is skipped and leaves the state unchanged.) -/
def routeMsg {α : Type} (s : DeviceApiState α) (msg : Response α) : DeviceApiState α :=
  match lookup? msg.message_id s.msgQueues with
  | none => s
  | some q => { s with msgQueues := setKey msg.message_id (q ++ [msg]) s.msgQueues }

/-- DeviceApi.close: clear the running flag, close the transport, join the
router thread (no state effect beyond the two flags). -/
def close {α : Type} (s : DeviceApiState α) : DeviceApiState α :=
  { s with running := false, wsClosed := true }

/-- Errors the bootstrap loop of DeviceApi.__init__ can raise. -/
inductive InitError where
  /-- NameError: the local variable type_enum referenced before any assignment. -/
  | nameError
  /-- IndexError: endpoint_types[i] with i out of range. -/
  | indexError
  deriving DecidableEq

/-- The bootstrap call response payload, per the transport boundary shape. -/
structure BootstrapPayload where
  version_string : String
  endpoints : List String
  endpoint_types : List String

/-- The for-loop of DeviceApi.__init__ over the bootstrap payload, with the
index i and the local variable type_enum (None while still unassigned)
made explicit: read endpoint_types[i] (IndexError when out of range);
assign type_enum only when the label is "call" or "event", otherwise keep
its previous value; then record (name, i, type_enum), raising NameError if
type_enum was never assigned. -/
def discoverLoop (endpointTypes : List String) :
    List String → Nat → Option DeviceApiEndpointType →
    Except InitError (List (String × Nat × DeviceApiEndpointType))
  | [], _, _ => Except.ok []
  | name :: rest, i, typeEnum =>
      match endpointTypes.get? i with
      | none => Except.error InitError.indexError
      | some typeStr =>
          let typeEnum1 :=
            if typeStr = "call" then some DeviceApiEndpointType.CALL
            else if typeStr = "event" then some DeviceApiEndpointType.EVENT
            else typeEnum
          match typeEnum1 with
          | none => Except.error InitError.nameError
          | some t =>
              (discoverLoop endpointTypes rest (i + 1) typeEnum1).map
                (fun tail => (name, i, t) :: tail)

/-- The endpoint entries DeviceApi.__init__ adds to self._endpoints from a
bootstrap payload (on top of the pre-seeded bootstrap entry). -/
def discoverEndpoints (p : BootstrapPayload) :
    Except InitError (List (String × Nat × DeviceApiEndpointType)) :=
  discoverLoop p.endpoint_types p.endpoints 0 none

/-- Trace abstraction for correlation-id allocation: run DeviceApi._send_msg
over a list of (endpoint, kwargs) requests, collecting the correlation id
of every request that allocated one (an id is allocated exactly when the
endpoint name is present in self._endpoints, whether or not the subsequent
transport send succeeds). -/
def sendMany {α : Type} (s : DeviceApiState α) :
    List (String × α) → List Nat × DeviceApiState α
  | [] => ([], s)
  | (endpoint, kwargs) :: rest =>
      match lookup? endpoint s.endpoints with
      | none => sendMany (sendMsg s endpoint kwargs).2 rest
      | some _ =>
          let s1 := (sendMsg s endpoint kwargs).2
          let out := sendMany s1 rest
          (s1.lastMessageId :: out.1, out.2)

/-- Errors raised by methods of the Device class that we model. -/
inductive DeviceError where
  /-- Python NameError for the given undefined identifier. -/
  | nameError (ident : String)
  deriving DecidableEq

/-- The request Device.api would issue for Device.get_events: path plus the
args dict it builds. -/
structure ApiRequest where
  path : String
  limitArg : Option Int
  eventsArg : Option (List String)
  deriving DecidableEq

/-- Python truthiness of the limit argument (an int or None). -/
def pyTruthyOptInt : Option Int → Bool
  | none => false
  | some n => n != 0

/-- Python truthiness of the kind argument (a string or None). -/
def pyTruthyOptStr : Option String → Bool
  | none => false
  | some s => s != ""

/-- The default value of the limit parameter of Device.get_events. -/
def getEventsDefaultLimit : Option Int := some 10

/-- Device.get_events: build args; when limit is truthy the body evaluates
the undefined identifier limi, so a NameError is raised before Device.api
is ever reached; when limit is falsy no limit key is set, a truthy kind
adds events = kind.split(","), and the request is issued. -/
def getEvents (kind : Option String) (limit : Option Int) :
    Except DeviceError ApiRequest :=
  if pyTruthyOptInt limit then
    Except.error (DeviceError.nameError "limi")
  else
    let eventsArg : Option (List String) :=
      if pyTruthyOptStr kind then
        some ((kind.getD "").splitOn ",")
      else
        none
    Except.ok { path := "iot/get_device_events", limitArg := none, eventsArg := eventsArg }

/-! ## Helper lemmas -/

theorem eraseKey_setKey {κ ν : Type} [DecidableEq κ] (k : κ) (v : ν)
    (m : List (κ × ν)) : eraseKey k (setKey k v m) = eraseKey k m := by
  induction m with
  | nil => simp [setKey, eraseKey]
  | cons hd tl ih =>
      obtain ⟨k1, v1⟩ := hd
      by_cases h : k1 = k <;> simp [setKey, eraseKey, h, ih]

theorem eraseKey_of_lookup_none {κ ν : Type} [DecidableEq κ] (k : κ)
    (m : List (κ × ν)) (h : lookup? k m = none) : eraseKey k m = m := by
  induction m with
  | nil => rfl
  | cons hd tl ih =>
      obtain ⟨k1, v1⟩ := hd
      by_cases hk : k1 = k
      · simp [lookup?, hk] at h
      · simp only [lookup?, if_neg hk] at h
        simp [eraseKey, hk, ih h]

/-- Outcome of a successful transport send in DeviceApi._send_msg: the
allocated correlation id is one greater than the previous last message id,
a fresh empty Pending Exchange queue is created for it, and the outgoing
message is appended to the transport log. -/
theorem sendMsg_of_lookup {α : Type} (s : DeviceApiState α) (endpoint : String)
    (kwargs : α) (eid : Nat) (ty : DeviceApiEndpointType)
    (hl : lookup? endpoint s.endpoints = some (eid, ty)) (hws : s.wsClosed = false) :
    sendMsg s endpoint kwargs =
      (Except.ok (s.lastMessageId + 1),
       { s with lastMessageId := s.lastMessageId + 1,
                msgQueues := setKey (s.lastMessageId + 1) [] s.msgQueues,
                sendAttempts := s.sendAttempts + 1,
                sendLog := s.sendLog ++ [⟨eid, kwargs, s.lastMessageId + 1⟩] }) := by
  simp [sendMsg, hl, hws]

/-- Outcome of DeviceApi._send_msg after the transport was closed: the id is
still allocated and the Pending Exchange still created, then ws.send_json
raises the connection-closed failure. -/
theorem sendMsg_of_wsClosed {α : Type} (s : DeviceApiState α) (endpoint : String)
    (kwargs : α) (eid : Nat) (ty : DeviceApiEndpointType)
    (hl : lookup? endpoint s.endpoints = some (eid, ty)) (hws : s.wsClosed = true) :
    sendMsg s endpoint kwargs =
      (Except.error PyError.connectionClosed,
       { s with lastMessageId := s.lastMessageId + 1,
                msgQueues := setKey (s.lastMessageId + 1) [] s.msgQueues,
                sendAttempts := s.sendAttempts + 1 }) := by
  simp [sendMsg, hl, hws]

/-- Running the event consumption loop over status-0 responses followed by a
terminal response: it yields the (optionally parsed) payloads in order,
ends exhausted ignoring anything after the terminal response, and deletes
the Pending Exchange entry. -/
theorem eventLoop_run {α : Type} (msgId : Nat) (asJson : Bool) (jsonLoads : α → α)
    (goods : List (Response α)) (term : Response α) (rest : List (Response α))
    (s : DeviceApiState α)
    (hg : ∀ r ∈ goods, r.status_code = 0) (hterm : term.status_code = 0xFFFF) :
    eventLoop msgId asJson jsonLoads (goods ++ term :: rest) s =
      (goods.map (fun r => if asJson then jsonLoads r.payload else r.payload),
       EventResult.exhausted,
       { s with msgQueues := eraseKey msgId s.msgQueues }) := by
  induction goods with
  | nil => simp [eventLoop, hterm]
  | cons g gs ih =>
      have hg0 : g.status_code = 0 := hg g (by simp)
      have ih1 := ih (fun r hr => hg r (by simp [hr]))
      simp [eventLoop, hg0, ih1]

/-! ## Concrete session states used in closed theorems and witnesses -/

/-- A capability table as produced by a bootstrap discovering a CALL
endpoint "ping" and an EVENT endpoint "get_log". -/
def exampleTable : List (String × Nat × DeviceApiEndpointType) :=
  [("get_call_info", (0, DeviceApiEndpointType.CALL)),
   ("ping", (1, DeviceApiEndpointType.CALL)),
   ("get_log", (2, DeviceApiEndpointType.EVENT))]

/-- A live session just after bootstrap (the bootstrap call consumed
correlation id 1) with one alive Pending Exchange: id 1 with an empty
queue, i.e. a consumer is blocked on it. -/
def liveState : DeviceApiState String :=
  { endpoints := exampleTable, lastMessageId := 1, msgQueues := [(1, [])],
    running := true, wsClosed := false, sendAttempts := 1, sendLog := [] }

/-- The same session after DeviceApi.close ran. -/
def closedState : DeviceApiState String := close liveState

/-! ## Claim theorems -/

/-- Claim C1 (code bug evaluation): when the transport reports closure while
the running flag is true, the router merely clears the flag and raises on
its own thread; it injects NO synthetic ConnectionClosed failure into the
alive Pending Exchange queues — msgQueues is left exactly as it was (id 1
still has an empty queue), so an event stream-advance blocked on that
queue remains blocked instead of terminating with an error.  After an
explicit close the router exits silently, again without injecting
anything. -/
theorem c1_no_injection_on_connection_closed :
    (msgRouterOnClosed liveState).1 = RouterExit.raisedConnectionClosed ∧
    (msgRouterOnClosed liveState).2.msgQueues = [(1, [])] ∧
    (eventLoop 1 true id [] (msgRouterOnClosed liveState).2).2.1 = EventResult.blocked ∧
    (msgRouterOnClosed (close liveState)).1 = RouterExit.exitedSilently ∧
    (msgRouterOnClosed (close liveState)).2.msgQueues = [(1, [])] :=
  ⟨rfl, rfl, rfl, rfl, rfl⟩

/-- Claim C2 (code bug evaluation): a call on "ping" whose queue receives no
response raises queue.Empty (the timeout error), but the Pending Exchange
entry for the freshly allocated correlation id 2 REMAINS in the map,
because the del statement is skipped when the get raises.  For contrast, a
status-0 response and a device-error response both remove the entry. -/
theorem c2_timeout_leaves_pending_exchange :
    (call liveState "ping" false id "" []).1 = Except.error PyError.queueEmpty ∧
    lookup? 2 (call liveState "ping" false id "" []).2.msgQueues = some [] ∧
    lookup? 2 (call liveState "ping" false id "" [⟨2, 0, "pong"⟩]).2.msgQueues = none ∧
    lookup? 2 (call liveState "ping" false id "" [⟨2, 2, "bad arg"⟩]).2.msgQueues = none :=
  ⟨rfl, rfl, rfl, rfl⟩

/-- Claim C3 (code bug evaluation): when an event stream on "get_log"
consumes a response with the non-zero, non-terminal status 2, the sequence
fails with the device-reported error carrying the payload, but the Pending
Exchange for correlation id 2 REMAINS in the map (the error branch of the
loop has no del).  For contrast, consuming the terminal status 0xFFFF does
remove it. -/
theorem c3_event_error_leaves_pending_exchange :
    (event liveState "get_log" false id "" [⟨2, 2, "bad arg"⟩]).1 =
      Except.ok ([], EventResult.raised "bad arg") ∧
    lookup? 2 (event liveState "get_log" false id "" [⟨2, 2, "bad arg"⟩]).2.msgQueues =
      some [] ∧
    lookup? 2 (event liveState "get_log" false id "" [⟨2, 0xFFFF, "z"⟩]).2.msgQueues =
      none :=
  ⟨rfl, rfl, rfl⟩

/-- Claim C7 (code bug evaluation): two malformed bootstrap payloads that
session construction nevertheless accepts: an unknown kind label in a
non-first position silently reuses the stale type_enum of the previous
iteration (mapping "b" to kind CALL), and an endpoint_types sequence
longer than endpoints is silently truncated.  For contrast, a too-short
endpoint_types raises IndexError and an unknown label in the first
position raises NameError. -/
theorem c7_malformed_bootstrap_accepted :
    discoverEndpoints { version_string := "1.0", endpoints := ["a", "b"],
                        endpoint_types := ["call", "bogus"] } =
      Except.ok [("a", 0, DeviceApiEndpointType.CALL),
                 ("b", 1, DeviceApiEndpointType.CALL)] ∧
    discoverEndpoints { version_string := "1.0", endpoints := ["a"],
                        endpoint_types := ["call", "event"] } =
      Except.ok [("a", 0, DeviceApiEndpointType.CALL)] ∧
    discoverEndpoints { version_string := "1.0", endpoints := ["a", "b"],
                        endpoint_types := ["call"] } =
      Except.error InitError.indexError ∧
    discoverEndpoints { version_string := "1.0", endpoints := ["a"],
                        endpoint_types := ["bogus"] } =
      Except.error InitError.nameError :=
  ⟨rfl, rfl, rfl, rfl⟩

/-- Claim C4: for an endpoint of kind EVENT, event sends exactly one request
(the transport log grows by exactly one message, carrying the endpoint id,
the kwargs payload, and the fresh correlation id) and then yields, in
receipt order, the payload — parsed per the requested mode — of every
status-0 response for its correlation id, until the terminal status 0xFFFF
is consumed; at that point the Pending Exchange is discarded (the map
returns to its prior value) and the sequence is exhausted: whatever
arrives after the terminal response (rest) is never consumed. -/
theorem c4_event_stream {α : Type} (s : DeviceApiState α) (endpoint : String)
    (eid : Nat) (asJson : Bool) (jsonLoads : α → α) (kwargs : α)
    (goods : List (Response α)) (term : Response α) (rest : List (Response α))
    (hl : lookup? endpoint s.endpoints = some (eid, DeviceApiEndpointType.EVENT))
    (hws : s.wsClosed = false)
    (hfresh : lookup? (s.lastMessageId + 1) s.msgQueues = none)
    (hg : ∀ r ∈ goods, r.status_code = 0)
    (hterm : term.status_code = 0xFFFF) :
    event s endpoint asJson jsonLoads kwargs (goods ++ term :: rest) =
      (Except.ok (goods.map (fun r => if asJson then jsonLoads r.payload else r.payload),
                  EventResult.exhausted),
       { s with lastMessageId := s.lastMessageId + 1,
                sendAttempts := s.sendAttempts + 1,
                sendLog := s.sendLog ++ [⟨eid, kwargs, s.lastMessageId + 1⟩] }) := by
  have hsend := sendMsg_of_lookup s endpoint kwargs eid DeviceApiEndpointType.EVENT hl hws
  simp only [event, hl, hsend, eventLoop_run _ _ _ goods term rest _ hg hterm]
  simp [eraseKey_setKey, eraseKey_of_lookup_none _ _ hfresh]

/-- Witness for claim C4, mirroring the spec scenario: event on "get_log"
with responses of payloads "a", "b" then the terminal status yields
exactly ["a", "b"], sends the single request with correlation id 2, and
leaves the Pending Exchange map as it was. -/
theorem c4_witness :
    event liveState "get_log" false id ""
        [⟨2, 0, "a"⟩, ⟨2, 0, "b"⟩, ⟨2, 0xFFFF, "z"⟩] =
      (Except.ok (["a", "b"], EventResult.exhausted),
       { liveState with lastMessageId := 2, sendAttempts := 2,
                        sendLog := [⟨2, "", 2⟩] }) := by
  have h := c4_event_stream liveState "get_log" 2 false id ""
    [⟨2, 0, "a"⟩, ⟨2, 0, "b"⟩] ⟨2, 0xFFFF, "z"⟩ []
    (by decide) (by decide) (by decide) (by decide) (by decide)
  simpa using h

/-- Claim C5: for an endpoint of kind CALL with a response arriving for the
allocated correlation id, call discards the Pending Exchange (the map
returns to its prior value and holds no entry for the id): on status 0 it
returns exactly the response payload, json-parsed when the caller asked
for JSON and raw otherwise; on a non-zero status it fails with the
device-reported error carrying the payload verbatim. -/
theorem c5_call_response {α : Type} (s : DeviceApiState α) (endpoint : String)
    (eid : Nat) (asJson : Bool) (jsonLoads : α → α) (kwargs : α)
    (ret : Response α) (rest : List (Response α))
    (hl : lookup? endpoint s.endpoints = some (eid, DeviceApiEndpointType.CALL))
    (hws : s.wsClosed = false)
    (hfresh : lookup? (s.lastMessageId + 1) s.msgQueues = none) :
    call s endpoint asJson jsonLoads kwargs (ret :: rest) =
      (if ret.status_code ≠ 0 then
         Except.error (PyError.deviceApiException ret.payload)
       else if asJson then Except.ok (jsonLoads ret.payload)
       else Except.ok ret.payload,
       { s with lastMessageId := s.lastMessageId + 1,
                sendAttempts := s.sendAttempts + 1,
                sendLog := s.sendLog ++ [⟨eid, kwargs, s.lastMessageId + 1⟩] }) ∧
    lookup? (s.lastMessageId + 1)
        (call s endpoint asJson jsonLoads kwargs (ret :: rest)).2.msgQueues = none := by
  have hsend := sendMsg_of_lookup s endpoint kwargs eid DeviceApiEndpointType.CALL hl hws
  have hmain :
      call s endpoint asJson jsonLoads kwargs (ret :: rest) =
        (if ret.status_code ≠ 0 then
           Except.error (PyError.deviceApiException ret.payload)
         else if asJson then Except.ok (jsonLoads ret.payload)
         else Except.ok ret.payload,
         { s with lastMessageId := s.lastMessageId + 1,
                  sendAttempts := s.sendAttempts + 1,
                  sendLog := s.sendLog ++ [⟨eid, kwargs, s.lastMessageId + 1⟩] }) := by
    simp only [call, hl, hsend]
    by_cases h0 : ret.status_code = 0
    · by_cases hj : asJson <;>
        simp [h0, hj, eraseKey_setKey, eraseKey_of_lookup_none _ _ hfresh]
    · simp [h0, eraseKey_setKey, eraseKey_of_lookup_none _ _ hfresh]
  refine ⟨hmain, ?_⟩
  rw [hmain]
  exact hfresh

/-- Witness for claim C5, mirroring the spec scenario: call on "ping" with
the status-0 response "pong" returns "pong" (raw mode), and no Pending
Exchange entry remains for the allocated correlation id 2. -/
theorem c5_witness :
    call liveState "ping" false id "" [⟨2, 0, "pong"⟩] =
      (Except.ok "pong",
       { liveState with lastMessageId := 2, sendAttempts := 2,
                        sendLog := [⟨1, "", 2⟩] }) ∧
    lookup? 2 (call liveState "ping" false id "" [⟨2, 0, "pong"⟩]).2.msgQueues = none := by
  have h := c5_call_response liveState "ping" 1 false id "" ⟨2, 0, "pong"⟩ []
    (by decide) (by decide) (by decide)
  simpa using h

/-- Claim C6: invoking call on an endpoint whose kind in the capability
table is EVENT (and symmetrically event on a CALL-kind name) fails with
the invalid-endpoint-type error and leaves the session state completely
unchanged: nothing is handed to the transport, no correlation id is
allocated, and no Pending Exchange is created. -/
theorem c6_kind_mismatch_pre_send {α : Type} (s : DeviceApiState α)
    (endpoint : String) (eid : Nat) (asJson : Bool) (jsonLoads : α → α)
    (kwargs : α) (arrivals : List (Response α)) :
    (lookup? endpoint s.endpoints = some (eid, DeviceApiEndpointType.EVENT) →
       call s endpoint asJson jsonLoads kwargs arrivals =
         (Except.error PyError.invalidEndpointType, s)) ∧
    (lookup? endpoint s.endpoints = some (eid, DeviceApiEndpointType.CALL) →
       event s endpoint asJson jsonLoads kwargs arrivals =
         (Except.error PyError.invalidEndpointType, s)) := by
  constructor
  · intro hl
    simp [call, hl]
  · intro hl
    simp [event, hl]

/-- Witness for claim C6: on the live session, call on the EVENT-kind
"get_log" and event on the CALL-kind "ping" both fail with the
invalid-endpoint-type error and leave the state untouched. -/
theorem c6_witness :
    call liveState "get_log" true id "" [] =
      (Except.error PyError.invalidEndpointType, liveState) ∧
    event liveState "ping" true id "" [] =
      (Except.error PyError.invalidEndpointType, liveState) :=
  ⟨(c6_kind_mismatch_pre_send liveState "get_log" 2 true id "" []).1 (by decide),
   (c6_kind_mismatch_pre_send liveState "ping" 1 true id "" []).2 (by decide)⟩

/-- Counterexample to claim C8 as stated: after close, call on the valid
CALL endpoint "ping" does NOT fail with a dedicated closed-session error
before sending — the transport send IS invoked (the send-attempt count
grows from 1 to 2) and a Pending Exchange is created for the freshly
allocated correlation id 2; the failure that surfaces is the transport
connection-closed error raised by that send.  Moreover, on an unknown
name the failure is a KeyError, not a closed-session error. -/
theorem c8_counterexample :
    (call closedState "ping" true id "" []).1 = Except.error PyError.connectionClosed ∧
    (call closedState "ping" true id "" []).2.sendAttempts = 2 ∧
    lookup? 2 (call closedState "ping" true id "" []).2.msgQueues = some [] ∧
    (call closedState "nope" true id "" []).1 = Except.error PyError.keyError :=
  ⟨rfl, rfl, rfl, rfl⟩

/-- Claim C8 as amended: after close has been invoked, call and event never
succeed and never block, but there is no closed-session check: a
right-kind endpoint invocation still allocates a fresh correlation id,
creates a Pending Exchange, and invokes the transport send, which raises
the transport connection-closed error; the session state is mutated
accordingly. -/
theorem c8_after_close_transport_failure {α : Type} (s0 : DeviceApiState α)
    (endpoint : String) (eid : Nat) (asJson : Bool) (jsonLoads : α → α)
    (kwargs : α) (arrivals : List (Response α)) :
    (lookup? endpoint s0.endpoints = some (eid, DeviceApiEndpointType.CALL) →
       call (close s0) endpoint asJson jsonLoads kwargs arrivals =
         (Except.error PyError.connectionClosed,
          { close s0 with lastMessageId := s0.lastMessageId + 1,
                          msgQueues := setKey (s0.lastMessageId + 1) [] s0.msgQueues,
                          sendAttempts := s0.sendAttempts + 1 })) ∧
    (lookup? endpoint s0.endpoints = some (eid, DeviceApiEndpointType.EVENT) →
       event (close s0) endpoint asJson jsonLoads kwargs arrivals =
         (Except.error PyError.connectionClosed,
          { close s0 with lastMessageId := s0.lastMessageId + 1,
                          msgQueues := setKey (s0.lastMessageId + 1) [] s0.msgQueues,
                          sendAttempts := s0.sendAttempts + 1 })) := by
  constructor
  · intro hl
    have hsend := sendMsg_of_wsClosed (close s0) endpoint kwargs eid
      DeviceApiEndpointType.CALL hl rfl
    simp only [close] at hsend
    simp [call, close, hl, hsend]
  · intro hl
    have hsend := sendMsg_of_wsClosed (close s0) endpoint kwargs eid
      DeviceApiEndpointType.EVENT hl rfl
    simp only [close] at hsend
    simp [event, close, hl, hsend]

/-- Witness for the amended claim C8: on the closed example session, call on
"ping" and event on "get_log" both raise the transport connection-closed
error after allocating id 2 and creating its Pending Exchange. -/
theorem c8_witness :
    call closedState "ping" true id "" [] =
      (Except.error PyError.connectionClosed,
       { closedState with lastMessageId := 2,
                          msgQueues := [(1, []), (2, [])],
                          sendAttempts := 2 }) ∧
    event closedState "get_log" true id "" [] =
      (Except.error PyError.connectionClosed,
       { closedState with lastMessageId := 2,
                          msgQueues := [(1, []), (2, [])],
                          sendAttempts := 2 }) := by
  have h1 := (c8_after_close_transport_failure liveState "ping" 1 true id "" []).1
    (by decide)
  have h2 := (c8_after_close_transport_failure liveState "get_log" 2 true id "" []).2
    (by decide)
  constructor
  · simpa using h1
  · simpa using h2

/-- DeviceApi._send_msg never touches the capability table. -/
theorem sendMsg_endpoints {α : Type} (s : DeviceApiState α) (endpoint : String)
    (kwargs : α) : (sendMsg s endpoint kwargs).2.endpoints = s.endpoints := by
  unfold sendMsg
  cases h : lookup? endpoint s.endpoints with
  | none => rfl
  | some v =>
      obtain ⟨eid, ty⟩ := v
      by_cases hws : s.wsClosed <;> simp [hws]

/-- An unknown endpoint name makes DeviceApi._send_msg raise before any
state mutation. -/
theorem sendMsg_of_lookup_none {α : Type} (s : DeviceApiState α) (endpoint : String)
    (kwargs : α) (h : lookup? endpoint s.endpoints = none) :
    sendMsg s endpoint kwargs = (Except.error PyError.invalidEndpoint, s) := by
  simp [sendMsg, h]

/-- Whenever the endpoint name is known, DeviceApi._send_msg allocates the
correlation id self._last_message_id + 1, whether or not the transport
send then succeeds. -/
theorem sendMsg_lastMessageId {α : Type} (s : DeviceApiState α) (endpoint : String)
    (kwargs : α) (eid : Nat) (ty : DeviceApiEndpointType)
    (h : lookup? endpoint s.endpoints = some (eid, ty)) :
    (sendMsg s endpoint kwargs).2.lastMessageId = s.lastMessageId + 1 := by
  cases hws : s.wsClosed with
  | true => rw [sendMsg_of_wsClosed s endpoint kwargs eid ty h hws]
  | false => rw [sendMsg_of_lookup s endpoint kwargs eid ty h hws]

/-- Every correlation id in a sendMany trace strictly exceeds the last
message id of the starting state, and the trace is strictly increasing. -/
theorem sendMany_ids_bounded {α : Type} :
    ∀ (reqs : List (String × α)) (s : DeviceApiState α),
      List.Chain' (· < ·) (sendMany s reqs).1 ∧
      ∀ n ∈ (sendMany s reqs).1, s.lastMessageId < n := by
  intro reqs
  induction reqs with
  | nil => intro s; exact ⟨List.chain'_nil, by simp [sendMany]⟩
  | cons hd tl ih =>
      intro s
      obtain ⟨endpoint, kwargs⟩ := hd
      cases h : lookup? endpoint s.endpoints with
      | none =>
          have hs : (sendMsg s endpoint kwargs).2 = s := by
            rw [sendMsg_of_lookup_none s endpoint kwargs h]
          simp only [sendMany, h, hs]
          exact ih s
      | some v =>
          obtain ⟨eid, ty⟩ := v
          have hid := sendMsg_lastMessageId s endpoint kwargs eid ty h
          have hrec := ih (sendMsg s endpoint kwargs).2
          simp only [sendMany, h]
          have hbound : ∀ n ∈ (sendMany (sendMsg s endpoint kwargs).2 tl).1,
              s.lastMessageId + 1 < n := by
            intro n hn
            have := hrec.2 n hn
            rwa [hid] at this
          constructor
          · rw [List.chain'_cons']
            refine ⟨?_, hrec.1⟩
            intro y hy
            have hmem := List.mem_of_mem_head? hy
            rw [hid]
            exact hbound y hmem
          · intro n hn
            rcases List.mem_cons.mp hn with h1 | h1
            · rw [h1, hid]; omega
            · have := hbound n h1; omega

/-- Claim C9: correlation ids allocated over any sequence of outgoing
requests form a strictly increasing, duplicate-free trace (so no id is
ever reused for the lifetime of the session), and each allocation by
_send_msg on a known endpoint sets the id to exactly one greater than
the previous last message id. -/
theorem c9_correlation_ids_monotone {α : Type} (s : DeviceApiState α)
    (reqs : List (String × α)) :
    List.Chain' (· < ·) (sendMany s reqs).1 ∧
    (sendMany s reqs).1.Nodup ∧
    (∀ endpoint kwargs eid ty,
       lookup? endpoint s.endpoints = some (eid, ty) →
       (sendMsg s endpoint kwargs).2.lastMessageId = s.lastMessageId + 1) := by
  obtain ⟨hchain, -⟩ := sendMany_ids_bounded reqs s
  refine ⟨hchain, ?_, ?_⟩
  · have hpw : (sendMany s reqs).1.Pairwise (· < ·) :=
      List.chain'_iff_pairwise.mp hchain
    exact List.Pairwise.imp Nat.ne_of_lt hpw
  · intro endpoint kwargs eid ty h
    exact sendMsg_lastMessageId s endpoint kwargs eid ty h

/-- Witness for claim C9: three requests on the live session (one of them on
an unknown endpoint, which allocates nothing) yield the strictly
increasing, duplicate-free correlation-id trace [2, 3], and a send on
"ping" advances the last message id from 1 to 2. -/
theorem c9_witness :
    List.Chain' (· < ·) (sendMany liveState [("ping", ""), ("nope", ""), ("get_log", "")]).1 ∧
    (sendMany liveState [("ping", ""), ("nope", ""), ("get_log", "")]).1.Nodup ∧
    (sendMsg liveState "ping" "").2.lastMessageId = liveState.lastMessageId + 1 := by
  have h := c9_correlation_ids_monotone liveState
    [("ping", ""), ("nope", ""), ("get_log", "")]
  exact ⟨h.1, h.2.1, h.2.2 "ping" "" 1 DeviceApiEndpointType.CALL (by decide)⟩

/-- Claim C10: for every kind argument, Device.get_events with a truthy
limit — the default 10 included — raises the NameError for the undefined
identifier limi before any API request is built or issued; a request is
issued exactly when the limit is falsy (0 or None). -/
theorem c10_get_events_name_error (kind : Option String) (limit : Option Int) :
    (pyTruthyOptInt limit = true →
       getEvents kind limit = Except.error (DeviceError.nameError "limi")) ∧
    (pyTruthyOptInt limit = false → ∃ r, getEvents kind limit = Except.ok r) ∧
    pyTruthyOptInt getEventsDefaultLimit = true := by
  refine ⟨?_, ?_, by decide⟩
  · intro h
    simp [getEvents, h]
  · intro h
    refine ⟨{ path := "iot/get_device_events", limitArg := none,
              eventsArg :=
                if pyTruthyOptStr kind then some ((kind.getD "").splitOn ",")
                else none }, ?_⟩
    simp [getEvents, h]

/-- Witness for claim C10: with the default limit of 10 the NameError for
limi is raised for any kind, and with limit None the request is issued. -/
theorem c10_witness :
    getEvents (some "config_changed") getEventsDefaultLimit =
      Except.error (DeviceError.nameError "limi") ∧
    ∃ r, getEvents (some "config_changed") none = Except.ok r :=
  ⟨(c10_get_events_name_error (some "config_changed") getEventsDefaultLimit).1 (by decide),
   (c10_get_events_name_error (some "config_changed") none).2.1 (by decide)⟩

end SsiIotApiClient
